/-
Verification of the genomic-to-transcript mapping pipeline (src/main/g2t.py).

The file shallowly embeds the pipeline:
  * `process_row` (worker task): decodes a row dict, queries the annotation
    store for exons overlapping the position, filters by strand, extracts
    the transcript_id attribute, and emits mapped records.
  * `dispatch`: collects worker results in order, propagating any uncaught
    task exception (models the `future.result()` loop).
  * `write_gppy_input`: serializes mapped records to the two-column input
    of the external transform tool (pandas raises KeyError on the column
    selection when the record list is empty, since a DataFrame built from
    an empty list has no columns).
  * `read_g2t_output`: models running the subprocess and reading its output
    table; the exit code returned by the subprocess is never examined, and
    reading an empty output file raises EmptyDataError.
  * `merge_left`: the pandas left merge of the transform output onto the
    mapped records, keyed on (transcript_id, genomic_position).
  * `partition_rows`: the train/validation split of `main`.

Exceptions are modelled with `Except String`; the annotation store is a
parameter `AnnotationDb` returning either a feature list or an error.
-/
import Mathlib

/-- An exon feature as returned by the annotation store: a strand and an
attribute map from keys to value lists (gffutils attribute semantics). -/
structure Exon where
  strand : String
  attributes : List (String × List String)
deriving DecidableEq, Repr

/-- A record emitted by the row mapper (transcript_id, genomic_position, label). -/
structure MappedRecord where
  transcript_id : String
  genomic_position : Int
  label : String
deriving DecidableEq, Repr

/-- A row of the external transform tool output (four fixed columns). -/
structure TransformedRecord where
  transcript_id : String
  genomic_position : Int
  transcript_position : Int
  feature : String
deriving DecidableEq, Repr

/-- A row of the final merged table; `label` is `none` when the left merge
found no mapped record for the key (pandas NaN). -/
structure FinalRecord where
  transcript_id : String
  genomic_position : Int
  transcript_position : Int
  feature : String
  label : Option String
deriving DecidableEq, Repr

/-- A raw input row of `main` (CSV columns, chrom as written in the file). -/
structure InputRow where
  chrom : String
  pos : String
  strand : String
  label : String
deriving DecidableEq, Repr

/-- The annotation store: `db.region(region=(chrom, pos, pos), featuretype=exon)`
either returns a feature list or raises (modelled as `Except.error`). -/
def AnnotationDb : Type := String → Int → Except String (List Exon)

/-- Models `exon.attributes.get(transcript_id, [None])[0]`: `none` when the
key is absent (the `[None]` default). gffutils never produces an empty value
list for a present key, so the `some []` branch (a Python IndexError) is
collapsed to `none` as well. -/
def attr_first (attrs : List (String × List String)) (key : String) : Option String :=
  match attrs.lookup key with
  | none => none
  | some vs => vs.head?

/-- The body of the exon loop of `process_row` (lines 26-35): skip the exon
when its strand differs from the row strand; fetch the transcript_id
attribute; emit a record only when it is truthy (present and non-empty). -/
def exon_to_record (pos : Int) (strand label : String) (e : Exon) : Option MappedRecord :=
  if e.strand ≠ strand then none
  else
    match attr_first e.attributes "transcript_id" with
    | none => none
    | some tid => if tid = "" then none else some ⟨tid, pos, label⟩

/-- Lines 20-37 of `process_row`: the region query wrapped in try/except
(any store error yields an empty result list), then the exon loop. -/
def process_row_core (db : AnnotationDb) (chrom : String) (pos : Int)
    (strand label : String) : List MappedRecord :=
  match db chrom pos with
  | .error _ => []
  | .ok exons => exons.filterMap (exon_to_record pos strand label)

/-- Dict access `row_dict[key]`: raises KeyError when the key is absent. -/
def getKey (row_dict : List (String × String)) (key : String) : Except String String :=
  match row_dict.lookup key with
  | some v => .ok v
  | none => .error ("KeyError: " ++ key)

/-- Decimal digit parsing for the model of Python `int(s)`: `none` unless
the character list is non-empty and all digits. -/
def digits_to_nat (cs : List Char) : Option Nat :=
  if cs.isEmpty then none
  else
    cs.foldl
      (fun acc c =>
        match acc with
        | none => none
        | some n => if c.isDigit then some (n * 10 + (c.toNat - 48)) else none)
      (some 0)

/-- A decimal integer string, with an optional sign. -/
def str_to_int (s : String) : Option Int :=
  match s.data with
  | '-' :: cs => (digits_to_nat cs).map (fun n => -(n : Int))
  | '+' :: cs => (digits_to_nat cs).map (fun n => (n : Int))
  | cs => (digits_to_nat cs).map (fun n => (n : Int))

/-- Python `int(s)`: raises ValueError when the string is not an integer. -/
def parseInt (s : String) : Except String Int :=
  match str_to_int s with
  | some n => .ok n
  | none => .error ("ValueError: " ++ s)

/-- The worker task `process_row(row_dict)` (lines 14-37): the four dict
accesses and the int conversion happen before the try block, so their
exceptions propagate out of the task; the query result is folded by
`process_row_core`. -/
def process_row (db : AnnotationDb) (row_dict : List (String × String)) :
    Except String (List MappedRecord) :=
  match getKey row_dict "chrom" with
  | .error e => .error e
  | .ok chrom =>
    match getKey row_dict "pos" with
    | .error e => .error e
    | .ok pos_str =>
      match parseInt pos_str with
      | .error e => .error e
      | .ok pos =>
        match getKey row_dict "strand" with
        | .error e => .error e
        | .ok strand =>
          match getKey row_dict "label" with
          | .error e => .error e
          | .ok label => .ok (process_row_core db chrom pos strand label)

/-- The collection loop of `map_genomic_to_transcript` (lines 60-70):
`future.result()` re-raises any exception of the task, aborting the loop;
otherwise the result lists are concatenated (`records.extend(result)`).
Completion order of the pool is arbitrary; the model uses submission order,
which does not affect whether the dispatch fails. -/
def dispatch : List (Except String (List MappedRecord)) → Except String (List MappedRecord)
  | [] => .ok []
  | t :: ts =>
    match t with
    | .error e => .error e
    | .ok recs =>
      match dispatch ts with
      | .error e => .error e
      | .ok rest => .ok (recs ++ rest)

/-- The column projection of line 74: one (transcript_id, genomic_position)
pair per collected record, in order, with no deduplication. -/
def gppy_pairs (records : List MappedRecord) : List (String × Int) :=
  records.map (fun r => (r.transcript_id, r.genomic_position))

/-- `to_csv(sep=tab, index=False, header=False)`: one tab-separated line per
pair, no header line. -/
def render_tsv (pairs : List (String × Int)) : List String :=
  pairs.map (fun p => p.1 ++ "\t" ++ toString p.2)

/-- Lines 73-76: build the DataFrame from the records and write the
two-column file. `pd.DataFrame([])` has no columns, so the column selection
raises KeyError when no record was collected. -/
def write_gppy_input (records : List MappedRecord) : Except String (List String) :=
  if records.isEmpty then .error "KeyError: transcript_id"
  else .ok (render_tsv (gppy_pairs records))

/-- Lines 80-88: run the external tool and read its output table. The
subprocess is run without `check=True` and its `returncode` is never
examined, so the `returncode` argument is ignored here; `pd.read_csv` on an
empty output file raises EmptyDataError. The output rows are taken already
parsed (the four-column layout is the tool contract). -/
def read_g2t_output (_returncode : Int) (rows : List TransformedRecord) :
    Except String (List TransformedRecord) :=
  if rows.isEmpty then .error "EmptyDataError" else .ok rows

/-- The merge key of line 90: equality on (transcript_id, genomic_position). -/
def key_match (t : TransformedRecord) (m : MappedRecord) : Bool :=
  m.transcript_id == t.transcript_id && m.genomic_position == t.genomic_position

/-- A final row: the four columns of the transform row plus an optional label. -/
def final_of (t : TransformedRecord) (lab : Option String) : FinalRecord :=
  ⟨t.transcript_id, t.genomic_position, t.transcript_position, t.feature, lab⟩

/-- One left-merge output group for one transform row: all key-matching
mapped records in order, or a single row with null label when none match. -/
def join_row (mapped : List MappedRecord) (t : TransformedRecord) : List FinalRecord :=
  match mapped.filter (key_match t) with
  | [] => [final_of t none]
  | ms => ms.map (fun m => final_of t (some m.label))

/-- Line 90: `pd.merge(g2t_df, gppy_input_df, on=[transcript_id,
genomic_position], how=left)` — left rows in order, each replaced by its
merge group. -/
def merge_left (g2t : List TransformedRecord) (mapped : List MappedRecord) : List FinalRecord :=
  match g2t with
  | [] => []
  | t :: ts => join_row mapped t ++ merge_left ts mapped

/-- The pure data path of `map_genomic_to_transcript` (lines 39-96):
dispatch the row tasks, write the tool input, run the tool (`gppy_g2t`
returns the exit code and the rows it wrote), read the output, merge. -/
def map_genomic_to_transcript (db : AnnotationDb) (rows : List (List (String × String)))
    (gppy_g2t : List String → Int × List TransformedRecord) :
    Except String (List FinalRecord) :=
  match dispatch (rows.map (process_row db)) with
  | .error e => .error e
  | .ok records =>
    match write_gppy_input records with
    | .error e => .error e
    | .ok input_lines =>
      let out := gppy_g2t input_lines
      match read_g2t_output out.1 out.2 with
      | .error e => .error e
      | .ok g2t => .ok (merge_left g2t records)

/-- Lines 119-120 of `main`: the validation partition is the rows whose
chromosome is in the allow-list, the training partition the rows whose
chromosome is not (`isin` and its negation). Returned as (val, train). -/
def partition_rows (val_chroms : List String) (rows : List InputRow) :
    List InputRow × List InputRow :=
  (rows.filter (fun r => val_chroms.contains r.chrom),
   rows.filter (fun r => !(val_chroms.contains r.chrom)))

/-- C2: an exon whose strand differs from the row strand (exact string
inequality) contributes no MappedRecord: removing such an exon from the
query result leaves the output of the row mapper unchanged. -/
theorem c2_strand_filter (chrom : String) (pos : Int) (strand label : String)
    (l1 l2 : List Exon) (e : Exon) (he : e.strand ≠ strand) :
    process_row_core (fun _ _ => .ok (l1 ++ e :: l2)) chrom pos strand label
      = process_row_core (fun _ _ => .ok (l1 ++ l2)) chrom pos strand label := by
  simp [process_row_core, List.filterMap_append, List.filterMap_cons, exon_to_record, he]

/-- C2 witness: a minus-strand exon is dropped for a plus-strand row. -/
theorem c2_strand_filter_witness :
    process_row_core (fun _ _ => .ok ([] ++ ⟨"-", [("transcript_id", ["T1"])]⟩ :: []))
        "1" 1000 "+" "X"
      = process_row_core (fun _ _ => .ok ([] ++ [])) "1" 1000 "+" "X" :=
  c2_strand_filter "1" 1000 "+" "X" [] [] ⟨"-", [("transcript_id", ["T1"])]⟩ (by decide)

/-- C3: when the annotation store raises on the region query, the row mapper
returns an empty record list for that row and does not propagate: the worker
task still succeeds with `.ok []`. -/
theorem c3_query_error_recovered (db : AnnotationDb) (c ps s l : String) (p : Int)
    (err : String) (hp : str_to_int ps = some p) (hq : db c p = .error err) :
    process_row db [("chrom", c), ("pos", ps), ("strand", s), ("label", l)] = .ok [] := by
  simp [process_row, getKey, parseInt, List.lookup, hp, process_row_core, hq]

/-- C3 witness: a store that always raises yields `.ok []` for a concrete row. -/
theorem c3_query_error_recovered_witness :
    process_row (fun _ _ => .error "seqid not found")
        [("chrom", "1"), ("pos", "1000"), ("strand", "+"), ("label", "X")] = .ok [] :=
  c3_query_error_recovered (fun _ _ => .error "seqid not found") "1" "1000" "+" "X"
    1000 "seqid not found" (by decide) rfl

/-- C10: an exon whose transcript_id attribute is present but empty is
dropped exactly like a missing one (Python truthiness): removing it from
the query result leaves the output of the row mapper unchanged. -/
theorem c10_empty_transcript_id_dropped (chrom : String) (pos : Int) (strand label : String)
    (l1 l2 : List Exon) (e : Exon) (he : attr_first e.attributes "transcript_id" = some "") :
    process_row_core (fun _ _ => .ok (l1 ++ e :: l2)) chrom pos strand label
      = process_row_core (fun _ _ => .ok (l1 ++ l2)) chrom pos strand label := by
  simp only [process_row_core, List.filterMap_append, List.filterMap_cons]
  have : exon_to_record pos strand label e = none := by
    unfold exon_to_record
    by_cases hs : e.strand ≠ strand
    · simp [hs]
    · simp [hs, he]
  rw [this]

/-- C10 witness: a strand-matching exon with an empty transcript_id emits nothing. -/
theorem c10_empty_transcript_id_dropped_witness :
    process_row_core (fun _ _ => .ok ([] ++ ⟨"+", [("transcript_id", [""])]⟩ :: []))
        "1" 1000 "+" "X"
      = process_row_core (fun _ _ => .ok ([] ++ [])) "1" 1000 "+" "X" :=
  c10_empty_transcript_id_dropped "1" 1000 "+" "X" [] []
    ⟨"+", [("transcript_id", [""])]⟩ (by decide)

/-- Helper: a dispatch whose tasks all succeed with an empty list yields `.ok []`. -/
theorem dispatch_all_empty (tasks : List (Except String (List MappedRecord)))
    (h : ∀ t ∈ tasks, t = Except.ok ([] : List MappedRecord)) : dispatch tasks = .ok [] := by
  induction tasks with
  | nil => rfl
  | cons t ts ih =>
    have ht : t = Except.ok ([] : List MappedRecord) := h t (List.mem_cons_self t ts)
    have hts : dispatch ts = .ok [] := ih (fun t2 h2 => h t2 (List.mem_cons_of_mem t h2))
    simp [dispatch, ht, hts]

/-- C4 counterexample: with one succeeding task and one failing task, the
dispatcher does not skip the failure and return the other result; it fails
the whole dispatch (`future.result()` re-raises). -/
theorem c4_counterexample :
    dispatch [Except.ok [⟨"T1", 1000, "X"⟩], Except.error "KeyError: label"]
        = .error "KeyError: label" ∧
    dispatch [Except.ok [⟨"T1", 1000, "X"⟩], Except.error "KeyError: label"]
        ≠ .ok [⟨"T1", 1000, "X"⟩] := by
  constructor
  · rfl
  · intro h
    rw [show dispatch [Except.ok [⟨"T1", 1000, "X"⟩], Except.error "KeyError: label"]
          = .error "KeyError: label" from rfl] at h
    exact Except.noConfusion h

/-- C4 (amended): when any worker task raises an exception not caught
inside the row mapper, the dispatcher propagates it and the whole dispatch
fails; results from the other tasks are not returned. -/
theorem c4_dispatch_propagates (tasks : List (Except String (List MappedRecord)))
    (e : String) (h : Except.error e ∈ tasks) : ∃ msg, dispatch tasks = .error msg := by
  induction tasks with
  | nil => cases h
  | cons t ts ih =>
    cases t with
    | error e2 => exact ⟨e2, rfl⟩
    | ok recs =>
      rcases List.mem_cons.mp h with h1 | h2
      · exact absurd h1 (by simp)
      · obtain ⟨msg, hm⟩ := ih h2
        exact ⟨msg, by simp [dispatch, hm]⟩

/-- C4 witness: a single failing task makes the dispatch fail. -/
theorem c4_dispatch_propagates_witness :
    ∃ msg, dispatch [Except.error "KeyError: strand"] = .error msg :=
  c4_dispatch_propagates [Except.error "KeyError: strand"] "KeyError: strand"
    (List.Mem.head _)

/-- C5 counterexample: a full run in which the external tool exits with
code 1 but still wrote one output row: the run does not fail; the output is
parsed and joined as if the tool had succeeded. -/
theorem c5_counterexample :
    map_genomic_to_transcript
        (fun c p => if c == "1" && p == 1000
          then .ok [⟨"+", [("transcript_id", ["T1"])]⟩] else .ok [])
        [[("chrom", "1"), ("pos", "1000"), ("strand", "+"), ("label", "X")]]
        (fun _ => (1, [⟨"T1", 1000, 50, "exon"⟩]))
      = .ok [⟨"T1", 1000, 50, "exon", some "X"⟩] := rfl

/-- C5 (amended): the gateway waits for the subprocess but never examines
its exit code: for a non-empty output table the parsed rows are returned
whatever the exit code, and the result is identical for any two exit codes. -/
theorem c5_exit_code_ignored (code1 code2 : Int) (rows : List TransformedRecord)
    (h : rows ≠ []) :
    read_g2t_output code1 rows = read_g2t_output code2 rows ∧
    read_g2t_output code1 rows = .ok rows := by
  constructor
  · rfl
  · simp [read_g2t_output, h]

/-- C5 witness: exit codes 1 and 0 give the same parsed result. -/
theorem c5_exit_code_ignored_witness :
    read_g2t_output 1 [⟨"T2", 5, 3, "exon"⟩] = read_g2t_output 0 [⟨"T2", 5, 3, "exon"⟩] ∧
    read_g2t_output 1 [⟨"T2", 5, 3, "exon"⟩] = .ok [⟨"T2", 5, 3, "exon"⟩] :=
  c5_exit_code_ignored 1 0 [⟨"T2", 5, 3, "exon"⟩] (by simp)

/-- C8: with a non-empty validation chromosome list, rows whose chromosome
is in the list go to the validation partition, all others to the training
partition; each partition contains only such rows, and the two partitions
together are a permutation of the input (no row lost or duplicated). -/
theorem c8_partition (val_chroms : List String) (rows : List InputRow)
    (h : val_chroms ≠ []) :
    (∀ r ∈ rows, val_chroms.contains r.chrom = true →
        r ∈ (partition_rows val_chroms rows).1) ∧
    (∀ r ∈ rows, val_chroms.contains r.chrom = false →
        r ∈ (partition_rows val_chroms rows).2) ∧
    (∀ r ∈ (partition_rows val_chroms rows).1, val_chroms.contains r.chrom = true) ∧
    (∀ r ∈ (partition_rows val_chroms rows).2, val_chroms.contains r.chrom = false) ∧
    ((partition_rows val_chroms rows).1 ++ (partition_rows val_chroms rows).2).Perm rows := by
  refine ⟨?_, ?_, ?_, ?_, ?_⟩
  · intro r hr hc
    exact List.mem_filter.mpr ⟨hr, hc⟩
  · intro r hr hc
    exact List.mem_filter.mpr ⟨hr, by simpa using hc⟩
  · intro r hr
    exact (List.mem_filter.mp hr).2
  · intro r hr
    have := (List.mem_filter.mp hr).2
    simpa using this
  · exact List.filter_append_perm _ rows

/-- C8 witness: a two-row input split on chromosome 1. -/
theorem c8_partition_witness :
    (∀ r ∈ [InputRow.mk "1" "5" "+" "X", InputRow.mk "2" "7" "-" "Y"],
        (["1"] : List String).contains r.chrom = true →
        r ∈ (partition_rows ["1"] [InputRow.mk "1" "5" "+" "X", InputRow.mk "2" "7" "-" "Y"]).1) ∧
    (∀ r ∈ [InputRow.mk "1" "5" "+" "X", InputRow.mk "2" "7" "-" "Y"],
        (["1"] : List String).contains r.chrom = false →
        r ∈ (partition_rows ["1"] [InputRow.mk "1" "5" "+" "X", InputRow.mk "2" "7" "-" "Y"]).2) ∧
    (∀ r ∈ (partition_rows ["1"] [InputRow.mk "1" "5" "+" "X", InputRow.mk "2" "7" "-" "Y"]).1,
        (["1"] : List String).contains r.chrom = true) ∧
    (∀ r ∈ (partition_rows ["1"] [InputRow.mk "1" "5" "+" "X", InputRow.mk "2" "7" "-" "Y"]).2,
        (["1"] : List String).contains r.chrom = false) ∧
    ((partition_rows ["1"] [InputRow.mk "1" "5" "+" "X", InputRow.mk "2" "7" "-" "Y"]).1 ++
        (partition_rows ["1"] [InputRow.mk "1" "5" "+" "X", InputRow.mk "2" "7" "-" "Y"]).2).Perm
      [InputRow.mk "1" "5" "+" "X", InputRow.mk "2" "7" "-" "Y"] :=
  c8_partition ["1"] [InputRow.mk "1" "5" "+" "X", InputRow.mk "2" "7" "-" "Y"] (by simp)

/-- C9: when every row task yields no mapped record, the pipeline fails
(the pandas column selection on the empty DataFrame raises KeyError) and
the failure happens before the external tool is invoked: the result does
not depend on the tool at all. -/
theorem c9_empty_records_fail_before_tool (db : AnnotationDb)
    (rows : List (List (String × String)))
    (gppy1 gppy2 : List String → Int × List TransformedRecord)
    (h : ∀ rd ∈ rows, process_row db rd = .ok []) :
    (∃ msg, map_genomic_to_transcript db rows gppy1 = .error msg) ∧
    map_genomic_to_transcript db rows gppy1 = map_genomic_to_transcript db rows gppy2 := by
  have hd : dispatch (rows.map (process_row db)) = .ok [] := by
    refine dispatch_all_empty _ ?_
    intro t ht
    obtain ⟨rd, hrd, rfl⟩ := List.mem_map.mp ht
    exact h rd hrd
  constructor
  · exact ⟨"KeyError: transcript_id", by simp [map_genomic_to_transcript, hd, write_gppy_input]⟩
  · simp [map_genomic_to_transcript, hd, write_gppy_input]

/-- C9 witness: a store with no features makes the whole pipeline fail
before the tool runs, for two different tools. -/
theorem c9_empty_records_fail_before_tool_witness :
    (∃ msg,
      map_genomic_to_transcript (fun _ _ => .ok [])
          [[("chrom", "1"), ("pos", "5"), ("strand", "+"), ("label", "X")]]
          (fun _ => (0, [⟨"T1", 5, 3, "exon"⟩])) = .error msg) ∧
    map_genomic_to_transcript (fun _ _ => .ok [])
        [[("chrom", "1"), ("pos", "5"), ("strand", "+"), ("label", "X")]]
        (fun _ => (0, [⟨"T1", 5, 3, "exon"⟩]))
      = map_genomic_to_transcript (fun _ _ => .ok [])
          [[("chrom", "1"), ("pos", "5"), ("strand", "+"), ("label", "X")]]
          (fun _ => (1, [])) :=
  c9_empty_records_fail_before_tool (fun _ _ => .ok [])
    [[("chrom", "1"), ("pos", "5"), ("strand", "+"), ("label", "X")]]
    (fun _ => (0, [⟨"T1", 5, 3, "exon"⟩])) (fun _ => (1, []))
    (by
      intro rd hrd
      rcases List.mem_singleton.mp hrd with rfl
      rfl)

/-- C6: every record emitted by the row mapper keeps the input position and
label, and its transcript_id is the (truthy) transcript_id attribute of a
strand-matching exon of the query result; an exon whose attributes lack
transcript_id contributes no record at all. -/
theorem c6_transcript_id_sourced (db : AnnotationDb) (c : String) (p : Int) (s l : String)
    (exons : List Exon) (r : MappedRecord) (l1 l2 : List Exon) (e : Exon)
    (hq : db c p = .ok exons)
    (hr : r ∈ process_row_core db c p s l)
    (he : attr_first e.attributes "transcript_id" = none) :
    (r.genomic_position = p ∧ r.label = l ∧ r.transcript_id ≠ "" ∧
      ∃ e2 ∈ exons, e2.strand = s ∧
        attr_first e2.attributes "transcript_id" = some r.transcript_id) ∧
    process_row_core (fun _ _ => .ok (l1 ++ e :: l2)) c p s l
      = process_row_core (fun _ _ => .ok (l1 ++ l2)) c p s l := by
  constructor
  · have hr2 : r ∈ exons.filterMap (exon_to_record p s l) := by
      simpa [process_row_core, hq] using hr
    obtain ⟨e2, he2, hrec⟩ := List.mem_filterMap.mp hr2
    unfold exon_to_record at hrec
    by_cases hs : e2.strand ≠ s
    · simp [hs] at hrec
    · have hseq : e2.strand = s := not_not.mp hs
      rw [if_neg hs] at hrec
      cases hattr : attr_first e2.attributes "transcript_id" with
      | none =>
        rw [hattr] at hrec
        exact Option.noConfusion hrec
      | some tid =>
        rw [hattr] at hrec
        have hrec2 : (if tid = "" then none else some (MappedRecord.mk tid p l)) = some r := hrec
        by_cases ht : tid = ""
        · rw [if_pos ht] at hrec2
          exact Option.noConfusion hrec2
        · rw [if_neg ht] at hrec2
          have hrv : MappedRecord.mk tid p l = r := Option.some_inj.mp hrec2
          subst hrv
          exact ⟨rfl, rfl, ht, e2, he2, hseq, hattr⟩
  · have hnone : exon_to_record p s l e = none := by
      unfold exon_to_record
      by_cases hs : e.strand ≠ s
      · simp [hs]
      · simp [hs, he]
    simp [process_row_core, List.filterMap_append, List.filterMap_cons, hnone]

/-- C6 witness: a concrete run with one well-formed exon and one lacking a
transcript_id attribute. -/
theorem c6_transcript_id_sourced_witness :
    ((MappedRecord.mk "T1" 1000 "X").genomic_position = 1000 ∧
      (MappedRecord.mk "T1" 1000 "X").label = "X" ∧
      (MappedRecord.mk "T1" 1000 "X").transcript_id ≠ "" ∧
      ∃ e2 ∈ [Exon.mk "+" [("transcript_id", ["T1"])]], e2.strand = "+" ∧
        attr_first e2.attributes "transcript_id"
          = some (MappedRecord.mk "T1" 1000 "X").transcript_id) ∧
    process_row_core (fun _ _ => .ok ([] ++ Exon.mk "+" [] :: [])) "1" 1000 "+" "X"
      = process_row_core (fun _ _ => .ok ([] ++ [])) "1" 1000 "+" "X" :=
  c6_transcript_id_sourced (fun _ _ => .ok [Exon.mk "+" [("transcript_id", ["T1"])]])
    "1" 1000 "+" "X" [Exon.mk "+" [("transcript_id", ["T1"])]]
    (MappedRecord.mk "T1" 1000 "X") [] [] (Exon.mk "+" [])
    rfl (by decide) rfl

/-- C7: the serialized tool input has exactly one line per collected record
in order (no header, no deduplication): the line list has the same length
as the record list, line i renders record i, and each (transcript_id,
genomic_position) pair occurs once per record carrying it. -/
theorem c7_tool_input_per_record (records : List MappedRecord) (lines : List String)
    (h : write_gppy_input records = .ok lines) :
    lines.length = records.length ∧
    (∀ i : Nat, lines[i]? = (records[i]?).map
        (fun r => r.transcript_id ++ "\t" ++ toString r.genomic_position)) ∧
    (∀ (tid : String) (gp : Int), (gppy_pairs records).count (tid, gp)
        = records.countP (fun r => r.transcript_id == tid && r.genomic_position == gp)) := by
  have hlines : lines = render_tsv (gppy_pairs records) := by
    unfold write_gppy_input at h
    by_cases hre : records.isEmpty
    · rw [if_pos hre] at h; exact absurd h (by simp)
    · rw [if_neg hre] at h; exact (Option.some_inj.mp (by simpa using h)).symm
  subst hlines
  refine ⟨by simp [render_tsv, gppy_pairs], ?_, ?_⟩
  · intro i
    simp only [render_tsv, gppy_pairs, List.getElem?_map, Option.map_map]
    rfl
  · intro tid gp
    show List.countP (fun x => x == (tid, gp)) (gppy_pairs records)
        = List.countP (fun r => r.transcript_id == tid && r.genomic_position == gp) records
    rw [gppy_pairs, List.countP_map]
    refine List.countP_congr ?_
    intro m _
    simp [Function.comp, Bool.and_eq_true, beq_iff_eq, Prod.ext_iff]

/-- C7 witness: two records sharing the key under different labels produce
two identical lines and a pair count of two. -/
theorem c7_tool_input_per_record_witness :
    (["T1\t1000", "T1\t1000"] : List String).length
        = ([⟨"T1", 1000, "X"⟩, ⟨"T1", 1000, "Y"⟩] : List MappedRecord).length ∧
    (∀ i : Nat, (["T1\t1000", "T1\t1000"] : List String)[i]?
        = (([⟨"T1", 1000, "X"⟩, ⟨"T1", 1000, "Y"⟩] : List MappedRecord)[i]?).map
            (fun r => r.transcript_id ++ "\t" ++ toString r.genomic_position)) ∧
    (∀ (tid : String) (gp : Int),
        (gppy_pairs [⟨"T1", 1000, "X"⟩, ⟨"T1", 1000, "Y"⟩]).count (tid, gp)
          = List.countP (fun r : MappedRecord => r.transcript_id == tid && r.genomic_position == gp)
              [⟨"T1", 1000, "X"⟩, ⟨"T1", 1000, "Y"⟩]) :=
  c7_tool_input_per_record [⟨"T1", 1000, "X"⟩, ⟨"T1", 1000, "Y"⟩]
    ["T1\t1000", "T1\t1000"] rfl

/-- Helper: a final row determines the transform row and the label it was
built from. -/
theorem final_of_inj {u v : TransformedRecord} {a b : Option String}
    (h : final_of u a = final_of v b) : u = v ∧ a = b := by
  cases u
  cases v
  simp only [final_of, FinalRecord.mk.injEq] at h
  obtain ⟨h1, h2, h3, h4, h5⟩ := h
  exact ⟨by simp [TransformedRecord.mk.injEq, h1, h2, h3, h4], h5⟩

/-- Helper: the merge group of a transform row with no key match. -/
theorem join_row_of_filter_nil {mapped : List MappedRecord} {t : TransformedRecord}
    (hf : mapped.filter (key_match t) = []) : join_row mapped t = [final_of t none] := by
  unfold join_row
  rw [hf]

/-- Helper: the merge group of a transform row with at least one key match. -/
theorem join_row_of_filter_cons {mapped : List MappedRecord} {t : TransformedRecord}
    {m : MappedRecord} {ms : List MappedRecord}
    (hf : mapped.filter (key_match t) = m :: ms) :
    join_row mapped t = (m :: ms).map (fun m2 => final_of t (some m2.label)) := by
  unfold join_row
  rw [hf]

/-- Helper: every element of a merge group is a final row of its transform row. -/
theorem mem_join_row {mapped : List MappedRecord} {t : TransformedRecord} {x : FinalRecord}
    (h : x ∈ join_row mapped t) : ∃ lab, x = final_of t lab := by
  cases hf : mapped.filter (key_match t) with
  | nil =>
    rw [join_row_of_filter_nil hf] at h
    exact ⟨none, List.mem_singleton.mp h⟩
  | cons m ms =>
    rw [join_row_of_filter_cons hf] at h
    obtain ⟨m2, _, hx⟩ := List.mem_map.mp h
    exact ⟨some m2.label, hx.symm⟩

/-- Helper: a merge group contributes nothing to the count of a final row
of a different transform row. -/
theorem count_join_row_ne {mapped : List MappedRecord} {u t : TransformedRecord}
    {lab : Option String} (h : u ≠ t) :
    (join_row mapped u).count (final_of t lab) = 0 := by
  rw [List.count_eq_zero]
  intro hmem
  obtain ⟨lab2, heq⟩ := mem_join_row hmem
  exact h ((final_of_inj heq).1.symm)

/-- Helper: within its own merge group, a labelled final row occurs once per
key-matching mapped record carrying that label. -/
theorem count_join_row_some (mapped : List MappedRecord) (t : TransformedRecord) (lab : String) :
    (join_row mapped t).count (final_of t (some lab))
      = mapped.countP (fun m => key_match t m && m.label == lab) := by
  cases hf : mapped.filter (key_match t) with
  | nil =>
    rw [join_row_of_filter_nil hf]
    have hz : mapped.countP (fun m => key_match t m && m.label == lab) = 0 := by
      rw [List.countP_eq_zero]
      intro m hm
      have hkm := List.filter_eq_nil_iff.mp hf m hm
      rw [Bool.and_eq_true]
      rintro ⟨hk, _⟩
      exact hkm hk
    rw [hz, List.count_eq_zero]
    intro hmem
    have heq := List.mem_singleton.mp hmem
    exact Option.noConfusion (final_of_inj heq).2
  | cons m ms =>
    rw [join_row_of_filter_cons hf]
    have hcm : List.count (final_of t (some lab))
          ((m :: ms).map (fun m2 => final_of t (some m2.label)))
        = List.countP
            ((fun x => x == final_of t (some lab)) ∘ (fun m2 => final_of t (some m2.label)))
            (m :: ms) :=
      List.countP_map _ _ _
    rw [hcm, ← hf, List.countP_filter]
    refine List.countP_congr ?_
    intro m2 _
    simp only [Function.comp, Bool.and_eq_true, beq_iff_eq]
    constructor
    · rintro ⟨hfin, hk⟩
      have := (final_of_inj hfin).2
      exact ⟨hk, Option.some_inj.mp this⟩
    · rintro ⟨hk, hl⟩
      exact ⟨by rw [hl], hk⟩

/-- Helper: within its own merge group, the null-label final row occurs
exactly once when no mapped record matches the key and never otherwise. -/
theorem count_join_row_none (mapped : List MappedRecord) (t : TransformedRecord) :
    (join_row mapped t).count (final_of t none)
      = if mapped.countP (key_match t) = 0 then 1 else 0 := by
  cases hf : mapped.filter (key_match t) with
  | nil =>
    rw [join_row_of_filter_nil hf]
    have hz : mapped.countP (key_match t) = 0 := by
      rw [List.countP_eq_zero]
      exact List.filter_eq_nil_iff.mp hf
    rw [hz]
    simp
  | cons m ms =>
    rw [join_row_of_filter_cons hf]
    have hne : mapped.countP (key_match t) ≠ 0 := by
      rw [List.countP_eq_length_filter, hf]
      simp
    rw [if_neg hne, List.count_eq_zero]
    intro hmem
    obtain ⟨m2, _, heq⟩ := List.mem_map.mp hmem
    exact Option.noConfusion (final_of_inj heq).2

/-- Helper: a transform row absent from the left table contributes no final
row to the merge. -/
theorem count_merge_left_of_not_mem {mapped : List MappedRecord}
    {g2t : List TransformedRecord} {t : TransformedRecord} {lab : Option String}
    (h : t ∉ g2t) : (merge_left g2t mapped).count (final_of t lab) = 0 := by
  induction g2t with
  | nil => rfl
  | cons u us ih =>
    have hu : u ≠ t := fun he => h (he ▸ List.mem_cons_self u us)
    have hus : t ∉ us := fun hm => h (List.mem_cons_of_mem u hm)
    rw [show merge_left (u :: us) mapped = join_row mapped u ++ merge_left us mapped from rfl,
      List.count_append, count_join_row_ne hu, ih hus]

/-- C1: the merge is a left outer join on (transcript_id, genomic_position):
for a transform row of the (duplicate-free) tool output, the final table
contains exactly one row per key-matching mapped record with that record's
label (fan-out across duplicate labels, each copy carrying the transform
row's transcript_position and feature), and exactly one row with a null
label when no mapped record matches the key. -/
theorem c1_left_outer_join (g2t : List TransformedRecord) (mapped : List MappedRecord)
    (t : TransformedRecord) (lab : String) (hnd : g2t.Nodup) (ht : t ∈ g2t) :
    (merge_left g2t mapped).count (final_of t (some lab))
        = mapped.countP (fun m => key_match t m && m.label == lab) ∧
    (merge_left g2t mapped).count (final_of t none)
        = if mapped.countP (key_match t) = 0 then 1 else 0 := by
  induction g2t with
  | nil => cases ht
  | cons u us ih =>
    obtain ⟨hnotin, hnd2⟩ := List.nodup_cons.mp hnd
    rcases List.mem_cons.mp ht with rfl | hmem
    · constructor
      · rw [show merge_left (t :: us) mapped = join_row mapped t ++ merge_left us mapped from rfl,
          List.count_append, count_join_row_some, count_merge_left_of_not_mem hnotin,
          Nat.add_zero]
      · rw [show merge_left (t :: us) mapped = join_row mapped t ++ merge_left us mapped from rfl,
          List.count_append, count_join_row_none, count_merge_left_of_not_mem hnotin,
          Nat.add_zero]
    · have hut : u ≠ t := fun he => hnotin (he ▸ hmem)
      obtain ⟨ih1, ih2⟩ := ih hnd2 hmem
      constructor
      · rw [show merge_left (u :: us) mapped = join_row mapped u ++ merge_left us mapped from rfl,
          List.count_append, count_join_row_ne hut, ih1, Nat.zero_add]
      · rw [show merge_left (u :: us) mapped = join_row mapped u ++ merge_left us mapped from rfl,
          List.count_append, count_join_row_ne hut, ih2, Nat.zero_add]

/-- C1 witness: the concrete scenario of the spec — one transform row
(T1, 1000, 50, exon), two labels X and Y at the key (T1, 1000): the label X
row occurs once (as does Y by symmetry) and no null-label row occurs. -/
theorem c1_left_outer_join_witness :
    (merge_left [⟨"T1", 1000, 50, "exon"⟩] [⟨"T1", 1000, "X"⟩, ⟨"T1", 1000, "Y"⟩]).count
        (final_of ⟨"T1", 1000, 50, "exon"⟩ (some "X"))
      = List.countP (fun m => key_match ⟨"T1", 1000, 50, "exon"⟩ m && m.label == "X")
          [⟨"T1", 1000, "X"⟩, ⟨"T1", 1000, "Y"⟩] ∧
    (merge_left [⟨"T1", 1000, 50, "exon"⟩] [⟨"T1", 1000, "X"⟩, ⟨"T1", 1000, "Y"⟩]).count
        (final_of ⟨"T1", 1000, 50, "exon"⟩ none)
      = if List.countP (key_match ⟨"T1", 1000, 50, "exon"⟩)
            [⟨"T1", 1000, "X"⟩, ⟨"T1", 1000, "Y"⟩] = 0 then 1 else 0 :=
  c1_left_outer_join [⟨"T1", 1000, 50, "exon"⟩] [⟨"T1", 1000, "X"⟩, ⟨"T1", 1000, "Y"⟩]
    ⟨"T1", 1000, 50, "exon"⟩ "X" (by decide) (by decide)
